import Mathlib

/-!
Verification development for `@stdlib/ndarray-base-fill`.

The package's own source (`lib/main.js`) is the orchestrator `fill`, which
(1) reads the destination's dtype, (2) rejects the scalar with a `TypeError`
when it is not "mostly safely" castable to that dtype, (3) broadcasts the
scalar to an ndarray of the destination's shape, and (4) assigns it
elementwise to the destination.  The three collaborator mechanisms
(cast policy, scalar broadcast view, strided assignment) live in dependency
packages whose code is not part of this repository; they are modelled here
from the specification and marked as such.
-/

set_option autoImplicit false

namespace NdarrayBaseFill

/-- Memory order of an ndarray view: row-major (C-style, last dimension varies
fastest) or column-major (Fortran-style, first dimension varies fastest). -/
inductive MemOrder where
  | rowMajor
  | colMajor
deriving DecidableEq

/-- Kind of an element type: integer, real floating-point, or complex
floating-point. -/
inductive DtypeKind where
  | integer
  | floating
  | complex
deriving DecidableEq

/-- Element data types: signed/unsigned integers of fixed widths, IEEE
floating-point widths, and complex variants pairing two floating-point
components. -/
inductive Dtype where
  | int8
  | int16
  | int32
  | uint8
  | uint16
  | uint32
  | float32
  | float64
  | complex64
  | complex128
deriving DecidableEq

/-- The kind (integer, floating-point, complex) of each element type. -/
def Dtype.kind : Dtype → DtypeKind
  | .int8 => .integer
  | .int16 => .integer
  | .int32 => .integer
  | .uint8 => .integer
  | .uint16 => .integer
  | .uint32 => .integer
  | .float32 => .floating
  | .float64 => .floating
  | .complex64 => .complex
  | .complex128 => .complex

/-- Whether an integer element type is signed. -/
def Dtype.isSigned : Dtype → Bool
  | .int8 => true
  | .int16 => true
  | .int32 => true
  | _ => false

/-- Number of magnitude bits of an integer element type (width minus the sign
bit for signed types). -/
def Dtype.intMagBits : Dtype → Nat
  | .int8 => 7
  | .int16 => 15
  | .int32 => 31
  | .uint8 => 8
  | .uint16 => 16
  | .uint32 => 32
  | _ => 0

/-- Number of significand bits (including the implicit bit) of a
floating-point or complex element type. -/
def Dtype.mantissaBits : Dtype → Nat
  | .float32 => 24
  | .float64 => 53
  | .complex64 => 24
  | .complex128 => 53
  | _ => 0

/-- The dtype string used in error messages ('float64', 'int32', ...). -/
def dtypeString : Dtype → String
  | .int8 => "int8"
  | .int16 => "int16"
  | .int32 => "int32"
  | .uint8 => "uint8"
  | .uint16 => "uint16"
  | .uint32 => "uint32"
  | .float32 => "float32"
  | .float64 => "float64"
  | .complex64 => "complex64"
  | .complex128 => "complex128"

/-- A scalar argument: a numeric value together with the natural element type
of its representation.  Numeric components are modelled as exact rationals
(the claims under verification do not depend on rounding).  For scalars of
non-complex kind the imaginary component is irrelevant. -/
structure Scalar where
  dtype : Dtype
  re : ℚ
  im : ℚ
deriving DecidableEq

/-- A stored element of a data buffer: a real number, or a complex number as a
pair of components. -/
inductive Elem where
  | real (v : ℚ)
  | cplx (re im : ℚ)
deriving DecidableEq

/-- Modelled from the spec: safe casts (CastPolicy rule 2) — integer widening
(treating a change from unsigned to signed as safe only when magnitude is
preserved, and signed to unsigned as unsafe), integer-to-floating widening
that preserves magnitude, and real-to-complex promotion.  The code of
`@stdlib/ndarray-base-assert-is-scalar-mostly-safe-compatible` is not in this
repository. -/
def isSafeCast (src dst : Dtype) : Bool :=
  match src.kind, dst.kind with
  | .integer, .integer =>
      (!src.isSigned || dst.isSigned) && decide (src.intMagBits ≤ dst.intMagBits)
  | .integer, .floating => decide (src.intMagBits ≤ dst.mantissaBits)
  | .integer, .complex => decide (src.intMagBits ≤ dst.mantissaBits)
  | .floating, .floating => decide (src.mantissaBits ≤ dst.mantissaBits)
  | .floating, .complex => decide (src.mantissaBits ≤ dst.mantissaBits)
  | .complex, .complex => decide (src.mantissaBits ≤ dst.mantissaBits)
  | _, _ => false

/-- Modelled from the spec: same-kind downcast exception (CastPolicy rule 3) —
both the value's natural type and the target are floating-point (real or
complex), excluding a complex value into a strictly real target (rule 4). -/
def sameKindDowncast (src dst : Dtype) : Bool :=
  (src.kind == .floating || src.kind == .complex) &&
    (dst.kind == .floating || dst.kind == .complex) &&
    !(src.kind == .complex && dst.kind == .floating)

/-- Modelled from the spec: the CastPolicy predicate
`is_mostly_safe_compatible(value, target_type)` — identical natural type
(rule 1), or a safe cast (rule 2), or a same-kind floating-point downcast
(rule 3); everything else is incompatible (rule 4). -/
def isScalarMostlySafeCompatible (value : Scalar) (dt : Dtype) : Bool :=
  value.dtype == dt || isSafeCast value.dtype dt || sameKindDowncast value.dtype dt

/-- Modelled from the spec: cast a scalar into the in-memory representation of
an element type.  If the target is complex and the value is a plain real
number, the real component equals the value and the imaginary component is
zero. -/
def castScalar (value : Scalar) (dt : Dtype) : Elem :=
  if dt.kind = .complex then
    if value.dtype.kind = .complex then .cplx value.re value.im
    else .cplx value.re 0
  else .real value.re

/-- Modelled from the spec: cast a stored element to a destination element
type, using the same representation rules as the scalar cast. -/
def elemCast (e : Elem) (dt : Dtype) : Elem :=
  match e, dt.kind with
  | .real v, .complex => .cplx v 0
  | .real v, _ => .real v
  | .cplx re im, .complex => .cplx re im
  | .cplx re _, _ => .real re

/-- An ndarray descriptor: element type, linear data buffer, dimensions,
per-dimension stride lengths, index offset, and memory order. -/
structure ArrayDescriptor where
  dtype : Dtype
  data : List Elem
  shape : List Nat
  strides : List Int
  offset : Nat
  order : MemOrder
deriving DecidableEq

/-- The buffer position addressed by a multi-index:
`offset + Σ index_k * stride_k`. -/
def linIndex (offset : Nat) (strides : List Int) (idx : List Nat) : Int :=
  (offset : Int) + (List.zipWith (fun s i => s * (i : Int)) strides idx).sum

/-- All multi-indices of a shape, in row-major (last dimension fastest)
enumeration.  The spec allows any single traversal order: the ordering choice
affects performance, not correctness. -/
def multiIndices : List Nat → List (List Nat)
  | [] => [[]]
  | n :: rest => (List.range n).flatMap fun i => (multiIndices rest).map fun t => i :: t

/-- Whether a multi-index is valid for a shape: same rank and each index
strictly below the corresponding dimension size. -/
def validIndex : List Nat → List Nat → Bool
  | [], [] => true
  | n :: rest, i :: is => decide (i < n) && validIndex rest is
  | _, _ => false

/-- Total element count of a shape (the product of the dimension sizes). -/
def numel (shape : List Nat) : Nat := shape.prod

/-- The spec's descriptor invariant, as a decidable check: every valid
multi-index addresses a buffer position within bounds. -/
def inBounds (x : ArrayDescriptor) : Bool :=
  (multiIndices x.shape).all fun idx =>
    decide (0 ≤ linIndex x.offset x.strides idx ∧
      (linIndex x.offset x.strides idx).toNat < x.data.length)

/-- Logical read-back of a descriptor at a multi-index, through the
descriptor's own strides and offset. -/
def readAt (x : ArrayDescriptor) (idx : List Nat) : Option Elem :=
  x.data[(linIndex x.offset x.strides idx).toNat]?

/-- Modelled from the spec: `make_broadcast(value, element_type, shape, order)`
(package `@stdlib/ndarray-base-broadcast-scalar`, not in this repository) —
a single-element buffer holding the cast value, the requested shape, all
strides zero, offset zero, and the requested order. -/
def broadcastScalar (value : Scalar) (dt : Dtype) (shape : List Nat) (order : MemOrder) :
    ArrayDescriptor :=
  { dtype := dt
    data := [castScalar value dt]
    shape := shape
    strides := shape.map fun _ => (0 : Int)
    offset := 0
    order := order }

/-- Failure of strided assignment: the two descriptors' shapes differ. -/
inductive AssignError where
  | shapeMismatch
deriving DecidableEq

/-- Modelled from the spec: `assign(source, destination)` (package
`@stdlib/ndarray-base-assign`, not in this repository) — for every multi-index
of the shape, read the source element at its addressed position, cast it to
the destination's element type, and store it at the destination's addressed
position.  Fails with `ShapeMismatch` when the shapes differ. -/
def assign (src dst : ArrayDescriptor) : Except AssignError ArrayDescriptor :=
  if src.shape = dst.shape then
    let newData :=
      (multiIndices dst.shape).foldl
        (fun buf idx =>
          buf.set (linIndex dst.offset dst.strides idx).toNat
            (elemCast (src.data.getD (linIndex src.offset src.strides idx).toNat (Elem.real 0))
              dst.dtype))
        dst.data
    .ok { dst with data := newData }
  else
    .error AssignError.shapeMismatch

/-- A thrown JavaScript error: its class name and its message. -/
structure ThrownError where
  name : String
  message : String
deriving DecidableEq

/-- Modelled from the spec: `@stdlib/string-format` applied to a template with
`%s` placeholders — each `%s` is replaced by the next argument. -/
def formatSub : List Char → List String → List Char
  | [], _ => []
  | '%' :: 's' :: rest, a :: args => a.data ++ formatSub rest args
  | c :: rest, args => c :: formatSub rest args

/-- Modelled from the spec: string formatting entry point. -/
def format (template : String) (args : List String) : String :=
  ⟨formatSub template.data args⟩

/-- The error-message template of `lib/main.js` line 86. -/
def fmtTemplate : String :=
  "invalid argument. The second argument cannot be safely cast to the input array data type. Data type: %s. Value: `%s`."

/-- Modelled from the spec: JavaScript stringification of a rational numeric
component (integers print without a fractional part). -/
def ratString (q : ℚ) : String :=
  if q.den = 1 then toString q.num else toString q.num ++ "/" ++ toString q.den

/-- Modelled from the spec: JavaScript stringification of the scalar argument,
as interpolated into the error message. -/
def scalarString (v : Scalar) : String :=
  if v.dtype.kind = .complex then ratString v.re ++ " + " ++ ratString v.im ++ "i"
  else ratString v.re

/-- The observable outcome of one `fill(x, value)` call: the JavaScript return
value (`none` models `undefined`), the thrown error if any, and the post-call
state of the descriptor `x` (JavaScript mutates `x.data` in place; a throw
leaves `x` as it was). -/
structure FillOutcome where
  ret : Option ArrayDescriptor
  err : Option ThrownError
  state : ArrayDescriptor
deriving DecidableEq

/-- The orchestrator of `lib/main.js`: read the dtype; throw a `TypeError`
when the scalar is not mostly-safely castable; otherwise broadcast the scalar
to the destination's shape and assign it elementwise.  The source function has
no return statement (its doc block declares `@returns {void}`), so the call
evaluates to `undefined`: `ret` is `none` on every path. -/
def fill (x : ArrayDescriptor) (value : Scalar) : FillOutcome :=
  let dt := x.dtype
  if isScalarMostlySafeCompatible value dt then
    match assign (broadcastScalar value dt x.shape x.order) x with
    | .ok y => { ret := none, err := none, state := y }
    | .error _ =>
        { ret := none
          err := some { name := "ShapeMismatch", message := "shape mismatch" }
          state := x }
  else
    { ret := none
      err := some { name := "TypeError"
                    message := format fmtTemplate [dtypeString dt, scalarString value] }
      state := x }

/-! ### Helper lemmas -/

theorem mem_multiIndices : ∀ (shape idx : List Nat),
    idx ∈ multiIndices shape ↔ validIndex shape idx = true
  | [], idx => by cases idx <;> simp [multiIndices, validIndex]
  | n :: rest, [] => by simp [multiIndices, validIndex]
  | n :: rest, i :: is => by
      simp only [multiIndices, validIndex, List.mem_flatMap, List.mem_map, List.mem_range,
        Bool.and_eq_true, decide_eq_true_eq]
      constructor
      · rintro ⟨a, ha, t, ht, heq⟩
        rw [List.cons.injEq] at heq
        obtain ⟨rfl, rfl⟩ := heq
        exact ⟨ha, (mem_multiIndices rest _).mp ht⟩
      · rintro ⟨hi, hv⟩
        exact ⟨i, hi, is, (mem_multiIndices rest is).mpr hv, rfl⟩

theorem length_multiIndices : ∀ (shape : List Nat),
    (multiIndices shape).length = numel shape
  | [] => rfl
  | n :: rest => by
      simp [multiIndices, numel, List.length_flatMap, Function.comp_def, List.length_map,
        length_multiIndices rest, List.map_const', List.sum_replicate, smul_eq_mul,
        List.length_range, List.prod_cons]

theorem foldl_set_getElem {α β : Type} (c : α) (f : β → Nat) :
    ∀ (idxs : List β) (buf : List α) (p : Nat),
      p < buf.length → ((∃ b ∈ idxs, f b = p) ∨ buf[p]? = some c) →
      (idxs.foldl (fun acc b => acc.set (f b) c) buf)[p]? = some c
  | [], buf, p, _, h => by
      rcases h with h | h
      · simp at h
      · simpa using h
  | b :: idxs, buf, p, hp, h => by
      rw [List.foldl_cons]
      apply foldl_set_getElem c f idxs (buf.set (f b) c) p
      · simpa [List.length_set] using hp
      · by_cases hfb : f b = p
        · right
          rw [hfb]
          exact List.getElem?_set_eq_of_lt c hp
        · rcases h with ⟨b', hb', hfb'⟩ | h
          · rcases List.mem_cons.mp hb' with rfl | hb''
            · exact absurd hfb' hfb
            · exact Or.inl ⟨b', hb'', hfb'⟩
          · right
            rw [List.getElem?_set_ne hfb]
            exact h

theorem foldl_set_length {α β : Type} (f : β → Nat) (g : β → α) :
    ∀ (idxs : List β) (buf : List α),
      (idxs.foldl (fun acc b => acc.set (f b) (g b)) buf).length = buf.length
  | [], _ => rfl
  | b :: idxs, buf => by
      rw [List.foldl_cons, foldl_set_length f g idxs, List.length_set]

theorem linIndex_replicate_zero : ∀ (k : Nat) (idx : List Nat),
    linIndex 0 (List.replicate k (0 : Int)) idx = 0
  | 0, idx => by simp [linIndex]
  | k + 1, [] => by simp [linIndex]
  | k + 1, i :: is => by
      have h := linIndex_replicate_zero k is
      simp [linIndex, List.replicate_succ] at h ⊢
      exact h

theorem elemCast_castScalar_self (value : Scalar) (dt : Dtype) :
    elemCast (castScalar value dt) dt = castScalar value dt := by
  cases hk : dt.kind <;>
    by_cases h2 : value.dtype.kind = DtypeKind.complex <;>
      simp [castScalar, elemCast, hk, h2]

/-- The buffer contents produced by a compatible `fill` call: every traversed
position is overwritten with the cast scalar. -/
def fillData (x : ArrayDescriptor) (value : Scalar) : List Elem :=
  (multiIndices x.shape).foldl
    (fun buf idx =>
      buf.set (linIndex x.offset x.strides idx).toNat (castScalar value x.dtype))
    x.data

theorem fill_compat_eq (x : ArrayDescriptor) (value : Scalar)
    (hc : isScalarMostlySafeCompatible value x.dtype = true) :
    fill x value = { ret := none, err := none, state := { x with data := fillData x value } } := by
  simp only [fill, hc, if_true]
  simp [assign, broadcastScalar, fillData, linIndex_replicate_zero, elemCast_castScalar_self]

theorem fill_incompat_eq (x : ArrayDescriptor) (value : Scalar)
    (hc : isScalarMostlySafeCompatible value x.dtype = false) :
    fill x value =
      { ret := none
        err := some { name := "TypeError"
                      message := format fmtTemplate [dtypeString x.dtype, scalarString value] }
        state := x } := by
  simp [fill, hc]

theorem fill_readAt_of_valid (x : ArrayDescriptor) (value : Scalar) (idx : List Nat)
    (hc : isScalarMostlySafeCompatible value x.dtype = true)
    (hb : inBounds x = true)
    (hi : validIndex x.shape idx = true) :
    readAt (fill x value).state idx = some (castScalar value x.dtype) := by
  rw [fill_compat_eq x value hc]
  have hmem : idx ∈ multiIndices x.shape := (mem_multiIndices _ _).mpr hi
  have hbnd := List.all_eq_true.mp hb idx hmem
  obtain ⟨hnn, hlt⟩ := of_decide_eq_true hbnd
  show (fillData x value)[(linIndex x.offset x.strides idx).toNat]? =
    some (castScalar value x.dtype)
  exact foldl_set_getElem (castScalar value x.dtype)
    (fun idx => (linIndex x.offset x.strides idx).toNat)
    (multiIndices x.shape) x.data _ hlt (Or.inl ⟨idx, hmem, rfl⟩)

theorem multiIndices_eq_nil_of_zero : ∀ (shape : List Nat), 0 ∈ shape → multiIndices shape = []
  | n :: rest, h => by
      rcases List.mem_cons.mp h with h0 | h0
      · simp [multiIndices, ← h0]
      · simp [multiIndices, multiIndices_eq_nil_of_zero rest h0]

theorem format_fmtTemplate (a b : String) :
    format fmtTemplate [a, b] =
      "invalid argument. The second argument cannot be safely cast to the input array data type. Data type: " ++
        a ++ ". Value: `" ++ b ++ "`." := by
  apply String.ext
  simp [format, fmtTemplate, formatSub, String.data_append]

/-! ### Concrete descriptors and scalars from the repository's documentation -/

/-- The example of `lib/main.js`: float64 buffer `[1,2,3,4,5,6]`, shape
`[3,1,2]`, strides `[2,2,1]`, offset `0`, row-major. -/
def exampleX : ArrayDescriptor :=
  { dtype := .float64
    data := [Elem.real 1, Elem.real 2, Elem.real 3, Elem.real 4, Elem.real 5, Elem.real 6]
    shape := [3, 1, 2]
    strides := [2, 2, 1]
    offset := 0
    order := .rowMajor }

/-- The example's fill value `10.0`, a float64-kind scalar. -/
def exampleValue : Scalar := { dtype := .float64, re := 10, im := 0 }

/-- A second view of the same logical shape `[3,1,2]` over a different buffer,
with column-major strides `[1,3,3]`. -/
def exampleColX : ArrayDescriptor :=
  { dtype := .float64
    data := [Elem.real 0, Elem.real 0, Elem.real 0, Elem.real 0, Elem.real 0, Elem.real 0]
    shape := [3, 1, 2]
    strides := [1, 3, 3]
    offset := 0
    order := .colMajor }

/-- A complex128 destination descriptor. -/
def exampleComplexX : ArrayDescriptor :=
  { dtype := .complex128
    data := [Elem.cplx 1 1, Elem.cplx 2 2]
    shape := [2]
    strides := [1]
    offset := 0
    order := .rowMajor }

/-- An int32 destination descriptor. -/
def exampleIntX : ArrayDescriptor :=
  { dtype := .int32
    data := [Elem.real 7, Elem.real 8]
    shape := [2]
    strides := [1]
    offset := 0
    order := .rowMajor }

/-- The JavaScript number `3.0`: floating-point kind (float64) with zero
fractional part. -/
def exampleFloatScalar : Scalar := { dtype := .float64, re := 3, im := 0 }

/-- An int32 descriptor with a zero-sized dimension. -/
def exampleZeroX : ArrayDescriptor :=
  { dtype := .int32
    data := [Elem.real 7]
    shape := [0]
    strides := [1]
    offset := 0
    order := .rowMajor }

/-! ### Claims -/

/-- C1: for every descriptor and every cast-compatible scalar, after
`fill(x, value)` reading `x` at every valid multi-index (via
`offset + Σ index*stride` addressing) yields the value cast to the element
type; in particular, the float64 example with buffer `[1,2,3,4,5,6]`, shape
`[3,1,2]`, strides `[2,2,1]`, offset `0`, row-major, filled with `10.0`,
leaves the buffer equal to `[10,10,10,10,10,10]`. -/
theorem fill_readback_every_index :
    (∀ (x : ArrayDescriptor) (value : Scalar) (idx : List Nat),
        isScalarMostlySafeCompatible value x.dtype = true →
        inBounds x = true →
        validIndex x.shape idx = true →
        readAt (fill x value).state idx = some (castScalar value x.dtype)) ∧
      (fill exampleX exampleValue).state.data =
        [Elem.real 10, Elem.real 10, Elem.real 10, Elem.real 10, Elem.real 10, Elem.real 10] :=
  ⟨fun x value idx hc hb hi => fill_readAt_of_valid x value idx hc hb hi, by decide⟩

/-- C1 witness: the general read-back property applied to the concrete
example at multi-index `[2,0,1]`. -/
theorem fill_readback_every_index_witness :
    isScalarMostlySafeCompatible exampleValue exampleX.dtype = true ∧
      inBounds exampleX = true ∧
      validIndex exampleX.shape [2, 0, 1] = true ∧
      readAt (fill exampleX exampleValue).state [2, 0, 1] =
        some (castScalar exampleValue exampleX.dtype) :=
  ⟨by decide, by decide, by decide,
    fill_readback_every_index.1 exampleX exampleValue [2, 0, 1] (by decide) (by decide)
      (by decide)⟩

/-- C2: an incompatible scalar makes `fill` throw a `TypeError` whose message
names the element type and the rejected value, and the throw happens before
any element is written: the descriptor, buffer included, is left unchanged. -/
theorem fill_incompatible_rejected (x : ArrayDescriptor) (value : Scalar)
    (hc : isScalarMostlySafeCompatible value x.dtype = false) :
    ∃ e : ThrownError,
      (fill x value).err = some e ∧
        e.name = "TypeError" ∧
        List.IsInfix (dtypeString x.dtype).data e.message.data ∧
        List.IsInfix (scalarString value).data e.message.data ∧
        (fill x value).state = x := by
  rw [fill_incompat_eq x value hc]
  refine ⟨_, rfl, rfl, ?_, ?_, rfl⟩
  · rw [format_fmtTemplate]
    refine ⟨("invalid argument. The second argument cannot be safely cast to the input array data type. Data type: " : String).data,
      ((". Value: `" : String) ++ scalarString value ++ "`.").data, ?_⟩
    simp [String.data_append]
  · rw [format_fmtTemplate]
    refine ⟨(("invalid argument. The second argument cannot be safely cast to the input array data type. Data type: " : String) ++
        dtypeString x.dtype ++ ". Value: `").data, ("`." : String).data, ?_⟩
    simp [String.data_append]

/-- C2 witness: the rejection applied to an int32 destination and the
float64 scalar `3.0`. -/
theorem fill_incompatible_rejected_witness :
    isScalarMostlySafeCompatible exampleFloatScalar exampleIntX.dtype = false ∧
      ∃ e : ThrownError,
        (fill exampleIntX exampleFloatScalar).err = some e ∧
          e.name = "TypeError" ∧
          List.IsInfix (dtypeString exampleIntX.dtype).data e.message.data ∧
          List.IsInfix (scalarString exampleFloatScalar).data e.message.data ∧
          (fill exampleIntX exampleFloatScalar).state = exampleIntX :=
  ⟨by decide, fill_incompatible_rejected exampleIntX exampleFloatScalar (by decide)⟩

/-- C3: filling a complex-dtype descriptor with a real (non-complex),
cast-compatible scalar makes every logical element the complex number with
real component the scalar and imaginary component zero. -/
theorem fill_complex_with_real_scalar (x : ArrayDescriptor) (value : Scalar) (idx : List Nat)
    (hcx : x.dtype.kind = DtypeKind.complex)
    (hreal : value.dtype.kind ≠ DtypeKind.complex)
    (hc : isScalarMostlySafeCompatible value x.dtype = true)
    (hb : inBounds x = true)
    (hi : validIndex x.shape idx = true) :
    readAt (fill x value).state idx = some (Elem.cplx value.re 0) := by
  rw [fill_readAt_of_valid x value idx hc hb hi]
  simp [castScalar, hcx, hreal]

/-- C3 witness: a complex128 destination filled with the real scalar `10.0`,
read back at index `[1]`. -/
theorem fill_complex_with_real_scalar_witness :
    exampleComplexX.dtype.kind = DtypeKind.complex ∧
      exampleValue.dtype.kind ≠ DtypeKind.complex ∧
      isScalarMostlySafeCompatible exampleValue exampleComplexX.dtype = true ∧
      inBounds exampleComplexX = true ∧
      validIndex exampleComplexX.shape [1] = true ∧
      readAt (fill exampleComplexX exampleValue).state [1] = some (Elem.cplx 10 0) :=
  ⟨by decide, by decide, by decide, by decide, by decide,
    fill_complex_with_real_scalar exampleComplexX exampleValue [1] (by decide) (by decide)
      (by decide) (by decide) (by decide)⟩

/-- C4 counterexample: at the documented example the call evaluates to
`undefined` (`none`), not to the descriptor that was passed in — the source
function has no return statement and its doc block declares `@returns void`,
so the claim that `fill` returns `x` itself is false. -/
theorem fill_return_value_cex :
    (fill exampleX exampleValue).ret = none ∧
      (fill exampleX exampleValue).ret ≠ some exampleX := by
  refine ⟨?_, ?_⟩ <;> decide

/-- C4 amended: `fill(x, value)` mutates `x` in place and returns
`undefined` (no return value) on every path. -/
theorem fill_returns_undefined (x : ArrayDescriptor) (value : Scalar) :
    (fill x value).ret = none := by
  cases hc : isScalarMostlySafeCompatible value x.dtype
  · rw [fill_incompat_eq x value hc]
  · rw [fill_compat_eq x value hc]

/-- C5 counterexample: a descriptor with a zero-sized dimension and an
incompatible scalar — `fill` raises the `TypeError` rather than succeeding,
because the compatibility check runs before the shape is ever consulted. -/
theorem fill_zero_size_cex :
    0 ∈ exampleZeroX.shape ∧ (fill exampleZeroX exampleFloatScalar).err ≠ none := by
  refine ⟨?_, ?_⟩ <;> decide

/-- C5 amended: on a descriptor with a zero-sized dimension `fill` never
writes (the buffer is unchanged), and it succeeds exactly when the scalar is
cast-compatible; an incompatible scalar is still rejected with the error. -/
theorem fill_zero_size_no_write (x : ArrayDescriptor) (value : Scalar) (h0 : 0 ∈ x.shape) :
    (fill x value).state.data = x.data ∧
      ((fill x value).err = none ↔ isScalarMostlySafeCompatible value x.dtype = true) := by
  cases hc : isScalarMostlySafeCompatible value x.dtype
  · rw [fill_incompat_eq x value hc]
    simp
  · rw [fill_compat_eq x value hc]
    constructor
    · show fillData x value = x.data
      unfold fillData
      rw [multiIndices_eq_nil_of_zero x.shape h0]
      rfl
    · simp

/-- C5 amended witness: the zero-size int32 descriptor with the incompatible
float64 scalar `3.0`. -/
theorem fill_zero_size_no_write_witness :
    0 ∈ exampleZeroX.shape ∧
      ((fill exampleZeroX exampleFloatScalar).state.data = exampleZeroX.data ∧
        ((fill exampleZeroX exampleFloatScalar).err = none ↔
          isScalarMostlySafeCompatible exampleFloatScalar exampleZeroX.dtype = true)) :=
  ⟨by decide, fill_zero_size_no_write exampleZeroX exampleFloatScalar (by decide)⟩

/-- C6: a compatible `fill` leaves the descriptor's dtype, shape, strides,
offset, and order unchanged; only the data buffer contents are modified. -/
theorem fill_preserves_metadata (x : ArrayDescriptor) (value : Scalar)
    (hc : isScalarMostlySafeCompatible value x.dtype = true) :
    (fill x value).state.dtype = x.dtype ∧
      (fill x value).state.shape = x.shape ∧
      (fill x value).state.strides = x.strides ∧
      (fill x value).state.offset = x.offset ∧
      (fill x value).state.order = x.order := by
  rw [fill_compat_eq x value hc]
  exact ⟨rfl, rfl, rfl, rfl, rfl⟩

/-- C6 witness: metadata preservation at the documented example. -/
theorem fill_preserves_metadata_witness :
    isScalarMostlySafeCompatible exampleValue exampleX.dtype = true ∧
      ((fill exampleX exampleValue).state.dtype = exampleX.dtype ∧
        (fill exampleX exampleValue).state.shape = exampleX.shape ∧
        (fill exampleX exampleValue).state.strides = exampleX.strides ∧
        (fill exampleX exampleValue).state.offset = exampleX.offset ∧
        (fill exampleX exampleValue).state.order = exampleX.order) :=
  ⟨by decide, fill_preserves_metadata exampleX exampleValue (by decide)⟩

/-- C7: a floating-point-kind scalar is never compatible with an integer
destination, regardless of its fractional part: `fill` rejects the call with
the unsafe-cast `TypeError` and leaves the destination unmodified. -/
theorem fill_float_into_integer_rejected (x : ArrayDescriptor) (value : Scalar)
    (hint : x.dtype.kind = DtypeKind.integer)
    (hfl : value.dtype.kind = DtypeKind.floating) :
    isScalarMostlySafeCompatible value x.dtype = false ∧
      (fill x value).err =
        some { name := "TypeError"
               message := format fmtTemplate [dtypeString x.dtype, scalarString value] } ∧
      (fill x value).state = x := by
  have hne : value.dtype ≠ x.dtype := by
    intro h
    simp [h, hint] at hfl
  have hsafe : isSafeCast value.dtype x.dtype = false := by
    simp [isSafeCast, hfl, hint]
  have hsk : sameKindDowncast value.dtype x.dtype = false := by
    simp [sameKindDowncast, hint]
  have hcf : isScalarMostlySafeCompatible value x.dtype = false := by
    simp [isScalarMostlySafeCompatible, hsafe, hsk, beq_iff_eq, hne]
  rw [fill_incompat_eq x value hcf]
  exact ⟨hcf, rfl, rfl⟩

/-- C7 witness: the int32 destination with the float64 scalar `3.0`. -/
theorem fill_float_into_integer_rejected_witness :
    exampleIntX.dtype.kind = DtypeKind.integer ∧
      exampleFloatScalar.dtype.kind = DtypeKind.floating ∧
      (isScalarMostlySafeCompatible exampleFloatScalar exampleIntX.dtype = false ∧
        (fill exampleIntX exampleFloatScalar).err =
          some { name := "TypeError"
                 message := format fmtTemplate
                   [dtypeString exampleIntX.dtype, scalarString exampleFloatScalar] } ∧
        (fill exampleIntX exampleFloatScalar).state = exampleIntX) :=
  ⟨by decide, by decide,
    fill_float_into_integer_rejected exampleIntX exampleFloatScalar (by decide) (by decide)⟩

/-- C8: two descriptors over different buffers representing the same logical
shape through different stride/order/offset combinations, filled with the
same compatible value, agree on the logical element at every valid
multi-index (read back through each descriptor's own strides and offset). -/
theorem fill_stride_order_independent (x1 x2 : ArrayDescriptor) (value : Scalar)
    (idx : List Nat)
    (hdt : x1.dtype = x2.dtype) (hsh : x1.shape = x2.shape)
    (hc : isScalarMostlySafeCompatible value x1.dtype = true)
    (hb1 : inBounds x1 = true) (hb2 : inBounds x2 = true)
    (hi : validIndex x1.shape idx = true) :
    readAt (fill x1 value).state idx = readAt (fill x2 value).state idx := by
  have hc2 : isScalarMostlySafeCompatible value x2.dtype = true := hdt ▸ hc
  have hi2 : validIndex x2.shape idx = true := hsh ▸ hi
  rw [fill_readAt_of_valid x1 value idx hc hb1 hi,
    fill_readAt_of_valid x2 value idx hc2 hb2 hi2, hdt]

/-- C8 witness: the row-major example versus a column-major view of the same
shape over a different buffer, at multi-index `[2,0,1]`. -/
theorem fill_stride_order_independent_witness :
    exampleX.dtype = exampleColX.dtype ∧
      exampleX.shape = exampleColX.shape ∧
      isScalarMostlySafeCompatible exampleValue exampleX.dtype = true ∧
      inBounds exampleX = true ∧
      inBounds exampleColX = true ∧
      validIndex exampleX.shape [2, 0, 1] = true ∧
      readAt (fill exampleX exampleValue).state [2, 0, 1] =
        readAt (fill exampleColX exampleValue).state [2, 0, 1] :=
  ⟨by decide, by decide, by decide, by decide, by decide, by decide,
    fill_stride_order_independent exampleX exampleColX exampleValue [2, 0, 1] (by decide)
      (by decide) (by decide) (by decide) (by decide) (by decide)⟩

/-- C9: `fill` terminates with work bounded by the total element count: the
buffer keeps its (finite) length, and the traversal visits exactly
`numel(shape)` multi-indices (rank 0 gives exactly one; a zero-sized
dimension gives zero). -/
theorem fill_work_bounded (x : ArrayDescriptor) (value : Scalar) :
    (fill x value).state.data.length = x.data.length ∧
      (multiIndices x.shape).length = numel x.shape := by
  constructor
  · cases hc : isScalarMostlySafeCompatible value x.dtype
    · rw [fill_incompat_eq x value hc]
    · rw [fill_compat_eq x value hc]
      exact foldl_set_length (fun idx => (linIndex x.offset x.strides idx).toNat)
        (fun _ => castScalar value x.dtype) (multiIndices x.shape) x.data
  · exact length_multiIndices x.shape

/-- C10: the only error `fill` itself throws is a `TypeError` whose message is
the fixed template instantiated with the dtype string and the stringified
value; a compatible call throws nothing. -/
theorem fill_error_is_fixed_typeerror (x : ArrayDescriptor) (value : Scalar) :
    (isScalarMostlySafeCompatible value x.dtype = false →
        (fill x value).err =
          some { name := "TypeError"
                 message :=
                   "invalid argument. The second argument cannot be safely cast to the input array data type. Data type: " ++
                     dtypeString x.dtype ++ ". Value: `" ++ scalarString value ++ "`." }) ∧
      (isScalarMostlySafeCompatible value x.dtype = true → (fill x value).err = none) := by
  constructor
  · intro hc
    rw [fill_incompat_eq x value hc, format_fmtTemplate]
  · intro hc
    rw [fill_compat_eq x value hc]

/-- C10 witness: the rejected int32/3.0 call carries exactly the template
message, and the accepted float64/10.0 call throws nothing. -/
theorem fill_error_is_fixed_typeerror_witness :
    (fill exampleIntX exampleFloatScalar).err =
      some { name := "TypeError"
             message :=
               "invalid argument. The second argument cannot be safely cast to the input array data type. Data type: " ++
                 dtypeString exampleIntX.dtype ++ ". Value: `" ++
                 scalarString exampleFloatScalar ++ "`." } ∧
      (fill exampleX exampleValue).err = none :=
  ⟨(fill_error_is_fixed_typeerror exampleIntX exampleFloatScalar).1 (by decide),
    (fill_error_is_fixed_typeerror exampleX exampleValue).2 (by decide)⟩

end NdarrayBaseFill
